import Mathlib

/-!
Verification of the MJOLNIR event-driven trust/response pipeline.

This file gives a shallow embedding, in Lean 4, of the parts of the MJOLNIR
source that the checked claims are about:

* `mjolnir/hashing.py` — `hash_file`, `generate_baseline`,
  `compare_with_baseline` (the Integrity Baseline Engine);
* `mjolnir/scheduler.py` — `periodic_hash_check` (the Periodic Rotation
  Scheduler);
* `mjolnir/main.py` — `verify_usb_trust`, `backup_files`, `disconnect_usb`
  and the `monitor_usb` event loop (Trust Verifier, Archival Pipeline and
  Response Controller).

External effects (the filesystem, the GPG binding, subprocess launches) are
modelled by explicit environment records passed to the embedded functions;
machine-level details that no claim depends on (the exact SHA-256 bit
computation, JSON surface syntax) are represented abstractly: a file's digest
is an uninterpreted function of the path supplied by the filesystem record,
which is sound because every claim only relies on digests being a fixed
function of the (unchanged) file contents during one run.
-/

namespace Mjolnir

/-! ## Filesystem model

A filesystem, as seen by `hashing.py`: which paths exist (`os.path.exists`),
which are directories (`os.path.isdir`), the recursive file listing of a
directory (`os.walk`, with paths already joined), and the result of hashing
a path (`hash_file`: `some digest`, or `none` when the Python function
catches an exception and returns `None`). -/
structure Fs where
  fileExists : String → Bool
  isDir : String → Bool
  walkFiles : String → List String
  hashResult : String → Option String

/-- Embedding of `hashing.hash_file` (hashing.py lines 6–15): streams the
file through SHA-256 and returns the hex digest, or returns `None` when any
exception occurs.  The digest value itself is supplied by the filesystem
record (it is a function of the file's bytes, which the record fixes). -/
def hash_file (fs : Fs) (p : String) : Option String := fs.hashResult p

/-- A manifest: the shape of `get_mandatory_files()` (config.py lines 48–55),
a mapping from category name to the list of configured paths, in insertion
order. -/
abbrev Manifest : Type := List (String × List String)

/-- A stored baseline: the shape of the JSON document `generate_baseline`
writes — category → path → digest-or-null.  `none` is JSON `null` (the file
was unreadable at baseline time). -/
abbrev Baseline : Type := List (String × List (String × Option String))

/-- The per-category path expansion shared by `generate_baseline` and
`compare_with_baseline` (hashing.py lines 21–29 and 44–58): each configured
path that exists contributes itself if it is a plain file, or every file of
its recursive walk if it is a directory; paths that do not exist contribute
nothing. -/
def expandPaths (fs : Fs) (paths : List String) : List String :=
  paths.flatMap fun f =>
    if fs.fileExists f then
      if fs.isDir f then fs.walkFiles f else [f]
    else []

/-- Embedding of `hashing.generate_baseline` (hashing.py lines 17–32),
restricted to the value it computes: for each category, each expanded path is
mapped to its `hash_file` result.  (The write of this value to disk is
modelled separately by `generate_baseline_ops`.) -/
def generate_baseline (fs : Fs) (man : Manifest) : Baseline :=
  man.map fun cf => (cf.1, (expandPaths fs cf.2).map fun p => (p, hash_file fs p))

/-- The write behaviour of `generate_baseline`: the operations it performs on
the baseline store.  The source (hashing.py lines 30–31) opens
`BASELINE_HASH_FILE` directly in mode `"w"` and `json.dump`s the fresh
hashes into it — a single direct write to the final path. -/
inductive FsOp where
  | write (path : String) (content : Baseline)
  | rename (src dst : String)
  deriving DecidableEq

def FsOp.isRename : FsOp → Bool
  | .write _ _ => false
  | .rename _ _ => true

/-- The file operations `generate_baseline` performs on the baseline store:
one direct write of the fresh baseline to the store path (hashing.py lines
30–31). -/
def generate_baseline_ops (baselinePath : String) (fs : Fs) (man : Manifest) :
    List FsOp :=
  [FsOp.write baselinePath (generate_baseline fs man)]

/-- Semantics of one store operation on a path → content map. -/
def applyOp (s : String → Option Baseline) : FsOp → (String → Option Baseline)
  | .write p c => fun q => if q = p then some c else s q
  | .rename src dst => fun q =>
      if q = dst then s src else if q = src then none else s q

def applyOps (ops : List FsOp) (s : String → Option Baseline) :
    String → Option Baseline :=
  ops.foldl applyOp s

/-- The raw stored entry for `(cat, p)`: `none` when the category or the path
is absent, `some none` when the path is present with a `null` digest,
`some (some d)` when it is present with digest `d`. -/
def lookupEntry (b : Baseline) (cat p : String) : Option (Option String) :=
  match b.lookup cat with
  | none => none
  | some entries => entries.lookup p

/-- Embedding of the Python lookup `baseline.get(category, {}).get(path)`
(hashing.py lines 51 and 56): an absent category, an absent path and a stored
`null` all collapse to `None`. -/
def pyGet (b : Baseline) (cat p : String) : Option String :=
  match lookupEntry b cat p with
  | some (some d) => some d
  | _ => none

/-- A mismatch tuple `(f, expected, current)` as appended at hashing.py
lines 53 and 58: `expected` is the stored (truthy) digest string, `actual`
the freshly computed `hash_file` result (possibly `None`). -/
structure Mismatch where
  path : String
  expected : String
  actual : Option String
  deriving DecidableEq

/-- The loop body of `compare_with_baseline` for one category and one
expanded path (hashing.py lines 50–53 and 55–58): compute the fresh digest,
look up the stored one, and emit a mismatch exactly when the stored value is
truthy (a non-empty string) and differs from the fresh digest. -/
def checkPath (fs : Fs) (b : Baseline) (cat p : String) : Option Mismatch :=
  let current := hash_file fs p
  match pyGet b cat p with
  | some expected =>
      if expected ≠ "" ∧ current ≠ some expected then
        some ⟨p, expected, current⟩
      else none
  | none => none

/-- Embedding of `hashing.compare_with_baseline` (hashing.py lines 34–58),
given an already-loaded baseline document: the list of mismatch tuples it
accumulates, in manifest/expansion order.  (The early return when the
baseline file does not exist is a reported condition at the call boundary
and produces no mismatches; the claims below are about runs where a baseline
document is present.) -/
def compare_with_baseline (fs : Fs) (man : Manifest) (b : Baseline) :
    List Mismatch :=
  man.flatMap fun cf => (expandPaths fs cf.2).filterMap (checkPath fs b cf.1)

/-! ## Scheduler model -/

/-- Python's `timedelta.days` for a difference given in seconds: floor
division (toward minus infinity) by 86400. -/
def tdDays (delta : Int) : Int := Int.fdiv delta 86400

/-- Outcome of one `periodic_hash_check` run: whether the baseline was
regenerated, the resulting `last_check` state, and the number of days the
log line `"Next hash check inN days."` reports when no regeneration
happens. -/
structure SchedOutcome where
  regenerated : Bool
  lastCheck : Option Int
  daysLeftReport : Option Int
  deriving DecidableEq

/-- The log message of scheduler.py line 32. -/
def rotation_message (d : Int) : String :=
  "Next hash check in " ++ toString d ++ " days."

/-- Embedding of `scheduler.periodic_hash_check` (scheduler.py lines 21–32).
Timestamps are integer seconds; `lastCheck = none` is an absent
`last_hash_check.json`.  The source regenerates when
`not last_check or (now - last_check).days >= rotation_days`, then writes
`last_check = now`; otherwise it reports
`rotation_days - (now - last_check).days` days remaining and leaves the
state unchanged. -/
def periodic_hash_check (rotationDays : Int) (lastCheck : Option Int)
    (now : Int) : SchedOutcome :=
  match lastCheck with
  | none => ⟨true, some now, none⟩
  | some lc =>
      if rotationDays ≤ tdDays (now - lc) then ⟨true, some now, none⟩
      else ⟨false, some lc, some (rotationDays - tdDays (now - lc))⟩

/-- Default rotation interval, `get_hash_rotation_days` (config.py line 66). -/
def HASH_ROTATION_DAYS_DEFAULT : Int := 7

/-! ## Python value and exception model for `main.py`

`main.py` references the imported *function* `get_usb_mount` without calling
it in two places (`os.path.join(get_usb_mount, "trusted_pubkey.asc")` at
line 48 and `shutil.copy(encrypted_archive, get_usb_mount)` at line 235), so
the embedding needs to distinguish a string value from a function object:
`os.path.join` and `shutil.copy` raise `TypeError` on a function object
(`os.fspath` of a non-path object). -/

inductive PyErr where
  | typeError
  | fileNotFoundError
  | calledProcessError
  deriving DecidableEq

inductive PyVal where
  | str (s : String)
  | func (name : String)
  deriving DecidableEq

/-- `os.path.join(a, b)` for a relative second component: concatenates with a
separator for string values; raises `TypeError` when the first argument is a
function object (`os.fspath` rejects it). -/
def os_path_join (a : PyVal) (b : String) : Except PyErr String :=
  match a with
  | .str s =>
      if b.startsWith "/" then .ok b
      else if s = "" ∨ s.endsWith "/" then .ok (s ++ b)
      else .ok (s ++ "/" ++ b)
  | .func _ => .error .typeError

/-- `shutil.copy(src, dst)`: succeeds onto a string destination path; raises
`TypeError` when the destination is a function object (`os.path.isdir` →
`os.stat` rejects it before any copying). -/
def shutil_copy (_src : String) (dst : PyVal) : Except PyErr Unit :=
  match dst with
  | .str _ => .ok ()
  | .func _ => .error .typeError

/-- The name `get_usb_mount` as it stands in `main.py`'s namespace: the
function object imported from `mjolnir.config` (main.py line 18), which
lines 48 and 235 use *without* calling it. -/
def get_usb_mount : PyVal := PyVal.func "get_usb_mount"

/-- `config.TRUSTED_KEY` (config.py line 11): the configured trusted
fingerprint, written in GPG display form with spaces. -/
def TRUSTED_KEY : String := "CDED 9917 B36D 9263 857B FC51 72E6 8FAE A13F 0903"

/-- Python's `needle in hay` on strings: substring containment. -/
def pyInStr (needle hay : String) : Bool :=
  decide (needle.toList <:+: hay.toList)

/-- Python's `str(...)` of a list of strings, as used in
`str(import_result.fingerprints)` (main.py line 54). -/
def pyStrOfList (l : List String) : String :=
  "[" ++ String.intercalate ", " (l.map fun s => "\x27" ++ s ++ "\x27") ++ "]"

/-! ## Trust Verifier -/

/-- The environment `verify_usb_trust` reads: which paths exist on disk, and
the fingerprints `gpg.import_keys` reports for the key material found at a
path. -/
structure TrustEnv where
  fileExists : String → Bool
  importFingerprints : String → List String

/-- Embedding of `main.verify_usb_trust` (main.py lines 47–57), step by step:
join `get_usb_mount` (the uncalled function object) with
`"trusted_pubkey.asc"`; if the resulting file does not exist return `False`;
otherwise import the key and test
`TRUSTED_KEY in str(import_result.fingerprints)` — a raw substring check. -/
def verify_usb_trust (env : TrustEnv) : Except PyErr Bool := do
  let pubkey_file ← os_path_join get_usb_mount "trusted_pubkey.asc"
  if !env.fileExists pubkey_file then
    return false
  let fps := env.importFingerprints pubkey_file
  return pyInStr TRUSTED_KEY (pyStrOfList fps)

/-! ## Archival & Encryption Pipeline -/

/-- `config.BACKUP_DIR` (config.py line 9). -/
def BACKUP_DIR : String := "/tmp/backups"

/-- `main.IMPORT_DIRS` (main.py lines 30–35). -/
def IMPORT_DIRS : List (String × String) :=
  [("DOCS", "/home/harpoon/important/DOCS"),
   ("NETWORKING", "/home/harpoon/important/NETWORKING"),
   ("SCREENSHOTS", "/home/harpoon/important/SCREENSHOTS"),
   ("MISC", "/home/harpoon/important/MISC")]

/-- The archive path `backup_files` builds (main.py line 113). -/
def backupArchiveName (ts : String) : String :=
  BACKUP_DIR ++ "/important_" ++ ts ++ ".tar.gz"

/-- The duck-typed result of `gpg.encrypt_file` as `backup_files` inspects it
(main.py lines 123–129): an `ok` flag and a `status` string. -/
structure EncryptResult where
  ok : Bool
  status : String
  deriving DecidableEq

/-- One observable step of a `backup_files` run, in execution order. -/
inductive BackupStep where
  | copyRealm (name src : String)
  | copyMandatory (file : String)
  | permissionDenied (file : String)
  | compareBaseline
  | makeArchive (path : String)
  | encryptAttempt (path : String) (ok : Bool)
  deriving DecidableEq

/-- The environment one `backup_files` run reads: the session timestamp, the
filesystem, the mandatory-file manifest, which per-file copies raise
`PermissionError` (caught at main.py lines 100–101), and the result object
`gpg.encrypt_file` returns for the session archive. -/
structure BackupEnv where
  timestamp : String
  dirExists : String → Bool
  mandatory : List (String × List String)
  fileExists : String → Bool
  copyRaisesPermission : String → Bool
  encrypt : String → EncryptResult

/-- Embedding of `main.backup_files` (main.py lines 60–132): the ordered
steps it performs and the value it returns.  The source copies each existing
configured directory, copies each existing mandatory file (a `PermissionError`
is caught and logged per file), runs `compare_with_baseline`, builds the
archive, calls `gpg.encrypt_file`, **inspects `encrypted_result.ok` only to
choose a log line** (lines 125–129), and then returns
`archive_name + ".gpg"` unconditionally (line 132). -/
def backup_files (env : BackupEnv) : List BackupStep × Except PyErr String :=
  let archive_name := backupArchiveName env.timestamp
  let realmSteps : List BackupStep := IMPORT_DIRS.filterMap fun nd =>
    if env.dirExists nd.2 then some (BackupStep.copyRealm nd.1 nd.2) else none
  let mandatorySteps : List BackupStep := env.mandatory.flatMap fun cf =>
    cf.2.filterMap fun f =>
      if env.fileExists f then
        some (if env.copyRaisesPermission f then BackupStep.permissionDenied f
              else BackupStep.copyMandatory f)
      else none
  let enc := env.encrypt archive_name
  (realmSteps ++ mandatorySteps ++
     [BackupStep.compareBaseline, BackupStep.makeArchive archive_name,
      BackupStep.encryptAttempt archive_name enc.ok],
   Except.ok (archive_name ++ ".gpg"))

/-! ## Response Controller and Device Event Monitor -/

/-- `main.EXPECTED_PORT` (main.py line 38), the configured expected port
identity the event loop compares device paths against. -/
def EXPECTED_PORT : String := "5-9"

/-- A hotplug event as the loop reads it (main.py lines 203–206):
`device.action`, `device.device_node` and `device.get("DEVPATH", "")`. -/
structure DeviceEvent where
  action : String
  device_node : String
  devpath : String
  deriving DecidableEq

/-- One security-relevant operation of the response flow, in execution
order.  Log lines and sleeps are omitted; `umountAttempt`/`ejectAttempt`
record whether the wrapped `subprocess.run` succeeded (its
`CalledProcessError` is caught either way, main.py lines 170–183). -/
inductive MonAction where
  | lockdownAlarm
  | countdown
  | verifyTrust
  | compareBaseline
  | backupFiles
  | copyToUsbAttempt
  | launchTools
  | umountAttempt (node : String) (succeeded : Bool)
  | ejectAttempt (node : String) (succeeded : Bool)
  deriving DecidableEq

/-- Embedding of `main.disconnect_usb` (main.py lines 165–186): the unmount
and the eject are each wrapped in their own `try/except CalledProcessError`,
so both are always attempted, whichever of them fails. -/
def disconnect_usb (umountFails ejectFails : Bool) (node : String) :
    List MonAction :=
  [MonAction.umountAttempt node !umountFails,
   MonAction.ejectAttempt node !ejectFails]

/-- The collaborator outcomes one `add`-event dispatch depends on: the result
of the `verify_usb_trust()` call, the session timestamp (fixing the archive
path `backup_files` returns), and whether the unmount/eject subprocesses
fail. -/
structure MonEnv where
  verify : Except PyErr Bool
  timestamp : String
  umountFails : Bool
  ejectFails : Bool

/-- Embedding of the body of `monitor_usb`'s loop for one `add` event
(main.py lines 204–250): if `EXPECTED_PORT` occurs in the device path
(`in`, substring containment, line 218 negated) nothing is done beyond log
lines; otherwise the alarm and countdown run, `verify_usb_trust()` is
called, and on a trusted result the controller runs
`compare_with_baseline()`, `backup_files()`,
`shutil.copy(encrypted_archive, get_usb_mount)` — note the uncalled
function object as destination — then `launch_security_suite()`, and in
both branches finally `disconnect_usb(device_node)`.  The returned pair is
the list of operations performed before the dispatch either completes
(`none`) or an uncaught exception escapes (`some err`). -/
def handle_add (env : MonEnv) (e : DeviceEvent) :
    List MonAction × Option PyErr :=
  if pyInStr EXPECTED_PORT e.devpath then
    ([], none)
  else
    let pre := [MonAction.lockdownAlarm, MonAction.countdown]
    match env.verify with
    | .error er => (pre ++ [MonAction.verifyTrust], some er)
    | .ok true =>
        let t1 := pre ++ [MonAction.verifyTrust, MonAction.compareBaseline,
                          MonAction.backupFiles]
        match shutil_copy (backupArchiveName env.timestamp ++ ".gpg")
            get_usb_mount with
        | .error er => (t1 ++ [MonAction.copyToUsbAttempt], some er)
        | .ok _ =>
            (t1 ++ [MonAction.copyToUsbAttempt, MonAction.launchTools] ++
               disconnect_usb env.umountFails env.ejectFails e.device_node,
             none)
    | .ok false =>
        (pre ++ [MonAction.verifyTrust] ++
           disconnect_usb env.umountFails env.ejectFails e.device_node,
         none)

/-- The dispatch of one `add` event with the *actual* collaborators of
`main.py`: the verify outcome is the embedded `verify_usb_trust` itself. -/
def handle_add_actual (tenv : TrustEnv) (ts : String) (uf ef : Bool)
    (e : DeviceEvent) : List MonAction × Option PyErr :=
  handle_add ⟨verify_usb_trust tenv, ts, uf, ef⟩ e

/-- Embedding of the `for device in monitor:` loop of `monitor_usb`
(main.py lines 203–250): `add` events are dispatched in order, any other
action is ignored, and — since no `try/except` surrounds the dispatch — an
exception raised while handling one event terminates the loop; events after
it are never dispatched.  The result pairs the per-event operation traces of
the dispatched events with the escaping exception, if any. -/
def monitor_loop (handler : DeviceEvent → List MonAction × Option PyErr) :
    List DeviceEvent → List (DeviceEvent × List MonAction) × Option PyErr
  | [] => ([], none)
  | e :: rest =>
      if e.action = "add" then
        match handler e with
        | (acts, none) =>
            let r := monitor_loop handler rest
            ((e, acts) :: r.1, r.2)
        | (acts, some er) => ([(e, acts)], some er)
      else
        monitor_loop handler rest

/-! ## Concrete inputs used by witnesses and counterexamples -/

/-- A filesystem with a single readable file `/etc/passwd` of digest
`"aa11"`. -/
def fsA : Fs :=
  ⟨fun p => p == "/etc/passwd", fun _ => false, fun _ => [],
   fun p => if p == "/etc/passwd" then some "aa11" else none⟩

def manA : Manifest := [("DOCS", ["/etc/passwd"])]

/-- A stored baseline in which `/etc/passwd` is present with a `null`
digest (the file was unreadable at baseline time). -/
def bNull : Baseline := [("DOCS", [("/etc/passwd", none)])]

/-- A baseline store path, as `get_baseline_hash_file` would produce one. -/
def BASELINE_PATH : String := "/mnt/usb/baseline_hashes.json"

/-- A device environment with no trusted key file anywhere. -/
def tenv0 : TrustEnv := ⟨fun _ => false, fun _ => []⟩

/-- An `add` event on a port other than the expected one. -/
def evtB : DeviceEvent := ⟨"add", "/dev/sdb", "/devices/pci0000:00/usb1/1-2"⟩

/-- A second `add` event on another non-expected port. -/
def evtC : DeviceEvent := ⟨"add", "/dev/sdc", "/devices/pci0000:00/usb1/1-3"⟩

/-- An `add` event whose device path ends in the expected port `5-9`. -/
def evtExpected : DeviceEvent :=
  ⟨"add", "/dev/sdd", "/devices/pci0000:00/usb1/5-9"⟩

/-- Arbitrary collaborator outcomes for the expected-port scenario. -/
def envIdle : MonEnv := ⟨Except.ok false, "t", false, false⟩

/-- A backup environment whose GPG encryption call fails. -/
def benvFail : BackupEnv :=
  ⟨"2025-01-01_00-00-00", fun _ => false, [], fun _ => false, fun _ => false,
   fun _ => ⟨false, "FAILURE"⟩⟩

/-! ## Trust Verifier (claim C2) -/

/-- Claim C2: `verify_usb_trust` can never return a boolean at all.  Because
main.py line 48 joins the *uncalled* function object `get_usb_mount` with
`"trusted_pubkey.asc"`, every invocation raises `TypeError` before the
key-file existence check, so the function neither returns `False` on an
absent key nor performs the fingerprint comparison. -/
theorem verify_usb_trust_always_raises (env : TrustEnv) :
    verify_usb_trust env = Except.error PyErr.typeError := rfl

/-! ## Archival pipeline (claim C1) -/

/-- Claim C1 (code bug): `backup_files` reports success regardless of the
encryption outcome.  Even when `gpg.encrypt_file` returns a result with
`ok = False` — which the source notices only to choose a log line (main.py
lines 125–129) — the function still performs the encryption attempt and then
returns the encrypted-artifact path `archive_name + ".gpg"` as its normal
return value (line 132). -/
theorem backup_files_reports_success_despite_encryption_failure
    (env : BackupEnv)
    (h : (env.encrypt (backupArchiveName env.timestamp)).ok = false) :
    (backup_files env).2 =
        Except.ok (backupArchiveName env.timestamp ++ ".gpg") ∧
    BackupStep.encryptAttempt (backupArchiveName env.timestamp) false ∈
      (backup_files env).1 := by
  constructor
  · rfl
  · simp [backup_files, h]

/-- Witness for C1: a concrete run whose encryption fails still returns the
`.gpg` path. -/
theorem backup_files_reports_success_despite_encryption_failure_witness :
    (backup_files benvFail).2 =
        Except.ok (backupArchiveName benvFail.timestamp ++ ".gpg") ∧
    BackupStep.encryptAttempt (backupArchiveName benvFail.timestamp) false ∈
      (backup_files benvFail).1 :=
  backup_files_reports_success_despite_encryption_failure benvFail rfl

/-! ## Response Controller (claims C5, C6) -/

/-- Claim C5: on an `add` event whose device path contains the expected
port identity (in particular, equals it), the controller performs no
security-relevant operation at all: no trust verification, no baseline
comparison, no backup, no copy, no tool launch and no unmount/eject, for
every possible collaborator outcome. -/
theorem expected_port_no_action (env : MonEnv) (e : DeviceEvent)
    (h : pyInStr EXPECTED_PORT e.devpath = true) :
    handle_add env e = ([], none) := by
  simp [handle_add, h]

/-- Witness for C5: the spec's scenario, a device on port `5-9`. -/
theorem expected_port_no_action_witness :
    pyInStr EXPECTED_PORT evtExpected.devpath = true ∧
    handle_add envIdle evtExpected = ([], none) :=
  ⟨by decide, expected_port_no_action envIdle evtExpected (by decide)⟩

/-- Claim C6 (code bug): on a non-matching port with a trusted verification
outcome, the controller runs the baseline comparison and the backup in the
claimed order, but the next step —
`shutil.copy(encrypted_archive, get_usb_mount)` with the *uncalled* function
object as destination (main.py line 235) — raises `TypeError`, so the
security tools are never launched and the device is neither unmounted nor
ejected. -/
theorem trusted_branch_copy_raises (ts : String) (uf ef : Bool)
    (e : DeviceEvent) (h : pyInStr EXPECTED_PORT e.devpath = false) :
    handle_add ⟨Except.ok true, ts, uf, ef⟩ e =
      ([MonAction.lockdownAlarm, MonAction.countdown, MonAction.verifyTrust,
        MonAction.compareBaseline, MonAction.backupFiles,
        MonAction.copyToUsbAttempt], some PyErr.typeError) := by
  simp [handle_add, h, shutil_copy, get_usb_mount]

/-- Witness for C6: the spec's scenario, a trusted device on port `1-2`. -/
theorem trusted_branch_copy_raises_witness :
    pyInStr EXPECTED_PORT evtB.devpath = false ∧
    handle_add ⟨Except.ok true, "t", false, false⟩ evtB =
      ([MonAction.lockdownAlarm, MonAction.countdown, MonAction.verifyTrust,
        MonAction.compareBaseline, MonAction.backupFiles,
        MonAction.copyToUsbAttempt], some PyErr.typeError) :=
  ⟨by decide, trusted_branch_copy_raises "t" false false evtB (by decide)⟩

/-! ## Device Event Monitor listen loop (claim C3) -/

/-- Counterexample to claim C3: with the actual collaborators of `main.py`
(whose `verify_usb_trust()` raises `TypeError`), the first `add` event on a
non-expected port raises during handling and the loop terminates with the
exception — the second event is never dispatched, so the loop does not
"continue to the next event". -/
theorem monitor_loop_crash_counterexample :
    (monitor_loop (handle_add_actual tenv0 "t" false false) [evtB, evtC]).2 =
        some PyErr.typeError ∧
    (monitor_loop (handle_add_actual tenv0 "t" false false)
        [evtB, evtC]).1.map Prod.fst = [evtB] := by
  decide

/-- Unfolding equation of `monitor_loop` on a cons cell. -/
theorem monitor_loop_cons (handler : DeviceEvent → List MonAction × Option PyErr)
    (e : DeviceEvent) (rest : List DeviceEvent) :
    monitor_loop handler (e :: rest) =
      if e.action = "add" then
        match handler e with
        | (acts, none) =>
            ((e, acts) :: (monitor_loop handler rest).1,
             (monitor_loop handler rest).2)
        | (acts, some er) => ([(e, acts)], some er)
      else monitor_loop handler rest := rfl

/-- Claim C3 (amended): there is no `try/except` at the event-dispatch
boundary of `monitor_usb` (main.py lines 203–250), so an exception raised
while handling one `add` event propagates: the loop terminates with that
exception and only the events before the failing one were dispatched. -/
theorem monitor_loop_exception_terminates
    (handler : DeviceEvent → List MonAction × Option PyErr)
    (pre : List DeviceEvent) (e : DeviceEvent) (post : List DeviceEvent)
    (er : PyErr)
    (hpre : ∀ x ∈ pre, x.action = "add" → (handler x).2 = none)
    (he : e.action = "add") (herr : (handler e).2 = some er) :
    (monitor_loop handler (pre ++ e :: post)).2 = some er ∧
    ∀ pr ∈ (monitor_loop handler (pre ++ e :: post)).1,
      pr.1 ∈ pre ∨ pr.1 = e := by
  revert hpre
  induction pre with
  | nil =>
      intro _
      rcases hh : handler e with ⟨acts, r⟩
      rw [hh] at herr
      simp only at herr
      subst herr
      have heq : monitor_loop handler ([] ++ e :: post) =
          ([(e, acts)], some er) := by
        show monitor_loop handler (e :: post) = _
        rw [monitor_loop_cons, if_pos he, hh]
      rw [heq]
      refine ⟨rfl, ?_⟩
      intro pr hpr
      simp only [List.mem_singleton] at hpr
      subst hpr
      exact Or.inr rfl
  | cons a t ih =>
      intro hpre
      have hpre' : ∀ x ∈ t, x.action = "add" → (handler x).2 = none :=
        fun x hx => hpre x (List.mem_cons_of_mem a hx)
      obtain ⟨ih1, ih2⟩ := ih hpre'
      by_cases ha : a.action = "add"
      · rcases hh : handler a with ⟨acts, r⟩
        have hr : r = none := by
          have h0 := hpre a (List.mem_cons_self a t) ha
          rw [hh] at h0
          exact h0
        subst hr
        have heq : monitor_loop handler ((a :: t) ++ e :: post) =
            ((a, acts) :: (monitor_loop handler (t ++ e :: post)).1,
             (monitor_loop handler (t ++ e :: post)).2) := by
          show monitor_loop handler (a :: (t ++ e :: post)) = _
          rw [monitor_loop_cons, if_pos ha, hh]
        rw [heq]
        refine ⟨ih1, ?_⟩
        intro pr hpr
        rcases List.mem_cons.mp hpr with h1 | h1
        · subst h1
          exact Or.inl (List.mem_cons_self a t)
        · rcases ih2 pr h1 with h2 | h2
          · exact Or.inl (List.mem_cons_of_mem a h2)
          · exact Or.inr h2
      · have heq : monitor_loop handler ((a :: t) ++ e :: post) =
            monitor_loop handler (t ++ e :: post) := by
          show monitor_loop handler (a :: (t ++ e :: post)) = _
          rw [monitor_loop_cons, if_neg ha]
        rw [heq]
        refine ⟨ih1, ?_⟩
        intro pr hpr
        rcases ih2 pr hpr with h2 | h2
        · exact Or.inl (List.mem_cons_of_mem a h2)
        · exact Or.inr h2

/-- Witness for the amended C3: the concrete two-event run of the
counterexample, seen through the general theorem. -/
theorem monitor_loop_exception_terminates_witness :
    (monitor_loop (handle_add_actual tenv0 "t" false false)
        ([] ++ evtB :: [evtC])).2 = some PyErr.typeError ∧
    ∀ pr ∈ (monitor_loop (handle_add_actual tenv0 "t" false false)
        ([] ++ evtB :: [evtC])).1,
      pr.1 ∈ ([] : List DeviceEvent) ∨ pr.1 = evtB :=
  monitor_loop_exception_terminates (handle_add_actual tenv0 "t" false false)
    [] evtB [evtC] PyErr.typeError (by simp) (by decide) (by decide)

/-! ## Baseline write behaviour (claim C4) -/

/-- Counterexample to claim C4: on a concrete run, the operations
`generate_baseline` performs on the store are a single `write` whose target
is the final baseline path itself — there is no write to a temporary
location and no rename. -/
theorem generate_baseline_not_atomic_counterexample :
    generate_baseline_ops BASELINE_PATH fsA manA =
      [FsOp.write BASELINE_PATH [("DOCS", [("/etc/passwd", some "aa11")])]] ∧
    ((generate_baseline_ops BASELINE_PATH fsA manA).all
        fun op => !op.isRename) = true := by
  decide

/-- Claim C4 (amended): `generate_baseline` replaces any prior baseline
wholesale — after its operations run, the store holds exactly the fresh
scan's results, whatever was there before — but it does so by one direct
write of the fresh results to the baseline path (hashing.py lines 30–31),
with no temporary file and no rename, so the write is not atomic against
interruption. -/
theorem generate_baseline_direct_wholesale_write (bp : String) (fs : Fs)
    (man : Manifest) (store : String → Option Baseline) :
    applyOps (generate_baseline_ops bp fs man) store bp =
        some (generate_baseline fs man) ∧
    ((generate_baseline_ops bp fs man).all fun op => !op.isRename) = true := by
  refine ⟨?_, rfl⟩
  simp [applyOps, generate_baseline_ops, applyOp]

/-! ## Periodic Rotation Scheduler (claim C7) -/

/-- Counterexample to claim C7: an immediate second call with
`rotation_days = 7` reports seven days remaining (the source logs
`rotation_days - (now - last_check).days` with an elapsed whole-day count of
zero), not six as the claim states. -/
theorem periodic_second_call_counterexample :
    periodic_hash_check 7 (some 0) 0 =
      ⟨false, some 0, some 7⟩ ∧
    rotation_message 7 = "Next hash check in 7 days." ∧
    (7 : Int) ≠ 6 := by
  decide

/-- Claim C7 (amended): `periodic_hash_check` regenerates the baseline and
writes `last_check = now` exactly when `last_check` is absent or the elapsed
whole-day count since it is at least the rotation interval; otherwise it
leaves the state unchanged and reports `rotation_days` minus the elapsed
whole-day count — in particular, an immediate second call with the default
interval reports seven days remaining, not six. -/
theorem periodic_hash_check_characterization (rot : Int) (lc : Option Int)
    (now : Int) :
    ((periodic_hash_check rot lc now).regenerated = true ↔
        (lc = none ∨ ∃ t, lc = some t ∧ rot ≤ tdDays (now - t))) ∧
    ((periodic_hash_check rot lc now).regenerated = true →
        (periodic_hash_check rot lc now).lastCheck = some now) ∧
    (∀ t, lc = some t → tdDays (now - t) < rot →
        periodic_hash_check rot lc now =
          ⟨false, some t, some (rot - tdDays (now - t))⟩) ∧
    ∀ t, periodic_hash_check HASH_ROTATION_DAYS_DEFAULT (some t) t =
      ⟨false, some t, some HASH_ROTATION_DAYS_DEFAULT⟩ := by
  have hzero : tdDays 0 = 0 := by decide
  have hlast : ∀ t, periodic_hash_check HASH_ROTATION_DAYS_DEFAULT (some t) t =
      ⟨false, some t, some HASH_ROTATION_DAYS_DEFAULT⟩ := by
    intro t
    simp only [periodic_hash_check, HASH_ROTATION_DAYS_DEFAULT, sub_self, hzero]
    norm_num
  cases lc with
  | none =>
      refine ⟨by simp [periodic_hash_check], fun _ => by
        simp [periodic_hash_check], fun t ht => absurd ht (by simp), hlast⟩
  | some v =>
      by_cases hv : rot ≤ tdDays (now - v)
      · refine ⟨⟨fun _ => Or.inr ⟨v, rfl, hv⟩, fun _ => by
          simp [periodic_hash_check, if_pos hv]⟩, fun _ => by
          simp [periodic_hash_check, if_pos hv], ?_, hlast⟩
        intro t ht hlt
        injection ht with ht
        subst ht
        exact absurd hv (not_le.mpr hlt)
      · refine ⟨⟨?_, ?_⟩, ?_, ?_, hlast⟩
        · intro hr
          simp [periodic_hash_check, if_neg hv] at hr
        · rintro (h | ⟨t, ht, hle⟩)
          · exact absurd h (by simp)
          · injection ht with ht
            subst ht
            exact absurd hle hv
        · intro hr
          simp [periodic_hash_check, if_neg hv] at hr
        · intro t ht _
          injection ht with ht
          subst ht
          simp [periodic_hash_check, if_neg hv]

/-- Witness for the amended C7: the immediate-second-call scenario at a
concrete time. -/
theorem periodic_hash_check_characterization_witness :
    periodic_hash_check HASH_ROTATION_DAYS_DEFAULT (some 0) 0 =
      ⟨false, some 0, some HASH_ROTATION_DAYS_DEFAULT⟩ :=
  (periodic_hash_check_characterization HASH_ROTATION_DAYS_DEFAULT
    (some 0) 0).2.2.2 0

/-! ## Integrity Baseline Engine (claims C8, C9, C10) -/

/-- When `checkPath` emits a mismatch: exactly for a stored truthy digest
that differs from the fresh one. -/
theorem checkPath_eq_some (fs : Fs) (b : Baseline) (cat p : String)
    (r : Mismatch) :
    checkPath fs b cat p = some r ↔
      r.path = p ∧ pyGet b cat p = some r.expected ∧ r.expected ≠ "" ∧
        r.actual = hash_file fs p ∧ r.actual ≠ some r.expected := by
  obtain ⟨rp, re, ra⟩ := r
  simp only [checkPath]
  cases hpg : pyGet b cat p with
  | none => simp
  | some d =>
      dsimp only
      by_cases hd : d ≠ "" ∧ hash_file fs p ≠ some d
      · rw [if_pos hd]
        simp only [Option.some.injEq, Mismatch.mk.injEq]
        constructor
        · rintro ⟨rfl, rfl, rfl⟩
          exact ⟨rfl, rfl, hd.1, rfl, hd.2⟩
        · rintro ⟨rfl, hre, _, rfl, _⟩
          exact ⟨rfl, hre, rfl⟩
      · rw [if_neg hd]
        push_neg at hd
        constructor
        · intro h
          exact absurd h (by simp)
        · rintro ⟨rfl, hre, hne, rfl, hne2⟩
          injection hre with hre
          subst hre
          exact absurd (hd hne) hne2

/-- Membership characterization of the mismatch list: shared backbone of the
claims about `compare_with_baseline`. -/
theorem compare_mem_char (fs : Fs) (man : Manifest) (b : Baseline)
    (r : Mismatch) :
    r ∈ compare_with_baseline fs man b ↔
      ∃ cat paths, (cat, paths) ∈ man ∧ r.path ∈ expandPaths fs paths ∧
        pyGet b cat r.path = some r.expected ∧ r.expected ≠ "" ∧
        r.actual = hash_file fs r.path ∧ r.actual ≠ some r.expected := by
  unfold compare_with_baseline
  rw [List.mem_flatMap]
  constructor
  · rintro ⟨⟨cat, paths⟩, hmem, hin⟩
    rw [List.mem_filterMap] at hin
    obtain ⟨p, hp, hcp⟩ := hin
    rw [checkPath_eq_some] at hcp
    obtain ⟨hpath, hpg, hne, hact, hne2⟩ := hcp
    refine ⟨cat, paths, hmem, ?_, ?_, hne, ?_, hne2⟩
    · rw [hpath]
      exact hp
    · rw [hpath]
      exact hpg
    · rw [hpath]
      exact hact
  · rintro ⟨cat, paths, hmem, hp, hpg, hne, hact, hne2⟩
    refine ⟨(cat, paths), hmem, ?_⟩
    rw [List.mem_filterMap]
    exact ⟨r.path, hp,
      (checkPath_eq_some fs b cat r.path r).mpr ⟨rfl, hpg, hne, hact, hne2⟩⟩

/-- Counterexample to claim C8: a path (`/etc/passwd`) present in the stored
baseline — with a `null` digest — and present in the fresh scan with a
differing digest `"aa11"`, for which `compare_with_baseline` emits no
mismatch at all. -/
theorem compare_null_digest_counterexample :
    lookupEntry bNull "DOCS" "/etc/passwd" = some none ∧
    expandPaths fsA ["/etc/passwd"] = ["/etc/passwd"] ∧
    hash_file fsA "/etc/passwd" = some "aa11" ∧
    compare_with_baseline fsA manA bNull = [] := by
  decide

/-- Claim C8 (amended): `compare_with_baseline` emits a mismatch tuple
exactly for the paths of the fresh scan whose stored baseline entry is a
truthy digest (present, non-null and non-empty) that differs from the fresh
`hash_file` result; a path present only in the fresh scan, only in the
stored baseline, or stored with a `null` digest is never reported. -/
theorem compare_mismatch_iff (fs : Fs) (man : Manifest) (b : Baseline)
    (r : Mismatch) :
    r ∈ compare_with_baseline fs man b ↔
      ∃ cat paths, (cat, paths) ∈ man ∧ r.path ∈ expandPaths fs paths ∧
        pyGet b cat r.path = some r.expected ∧ r.expected ≠ "" ∧
        r.actual = hash_file fs r.path ∧ r.actual ≠ some r.expected :=
  compare_mem_char fs man b r

/-- A lookup in a block of freshly computed hashes returns the fresh hash of
the looked-up path. -/
theorem lookup_hashBlock (fs : Fs) (l : List String) (p : String)
    (v : Option String)
    (h : ((l.map fun q => (q, hash_file fs q)).lookup p) = some v) :
    v = hash_file fs p := by
  induction l with
  | nil => simp [List.lookup] at h
  | cons a t ih =>
      simp only [List.map_cons, List.lookup] at h
      cases hab : (p == a) with
      | true =>
          rw [hab] at h
          simp only [Option.some.injEq] at h
          rw [← h, (by exact eq_of_beq hab : p = a)]
      | false =>
          rw [hab] at h
          exact ih h

/-- A category looked up in a generated baseline is a block of freshly
computed hashes for some configured path list. -/
theorem lookup_generate (fs : Fs) (man : Manifest) (cat : String)
    (entries : List (String × Option String))
    (h : (generate_baseline fs man).lookup cat = some entries) :
    ∃ paths, entries = (expandPaths fs paths).map fun q => (q, hash_file fs q) := by
  induction man with
  | nil => simp [generate_baseline, List.lookup] at h
  | cons cf t ih =>
      simp only [generate_baseline, List.map_cons, List.lookup] at h
      cases hb : (cat == cf.1) with
      | true =>
          rw [hb] at h
          simp only [Option.some.injEq] at h
          exact ⟨cf.2, h.symm⟩
      | false =>
          rw [hb] at h
          exact ih (by simpa [generate_baseline] using h)

/-- The stored digest a fresh `generate_baseline` result yields for a path
is that path's own fresh hash. -/
theorem pyGet_generate (fs : Fs) (man : Manifest) (cat p : String)
    (d : String)
    (h : pyGet (generate_baseline fs man) cat p = some d) :
    hash_file fs p = some d := by
  unfold pyGet lookupEntry at h
  cases hl : (generate_baseline fs man).lookup cat with
  | none =>
      rw [hl] at h
      simp at h
  | some entries =>
      rw [hl] at h
      dsimp only at h
      obtain ⟨paths, rfl⟩ := lookup_generate fs man cat entries hl
      cases he : ((expandPaths fs paths).map fun q => (q, hash_file fs q)).lookup p with
      | none =>
          rw [he] at h
          simp at h
      | some v =>
          rw [he] at h
          have hv := lookup_hashBlock fs (expandPaths fs paths) p v he
          subst hv
          cases hf : hash_file fs p with
          | none =>
              rw [hf] at h
              simp at h
          | some s =>
              rw [hf] at h
              simp at h
              rw [h]

/-- Claim C9: generating a baseline and immediately comparing against it on
the unmodified file set yields zero mismatches. -/
theorem generate_then_compare_no_mismatch (fs : Fs) (man : Manifest) :
    compare_with_baseline fs man (generate_baseline fs man) = [] := by
  rw [List.eq_nil_iff_forall_not_mem]
  intro r hr
  rw [compare_mem_char] at hr
  obtain ⟨cat, paths, _, _, hpg, _, hact, hne2⟩ := hr
  exact hne2 (hact.trans (pyGet_generate fs man cat r.path r.expected hpg))

/-- Claim C10: a path whose stored baseline digest is `null` (or absent) in
every manifest category is never reported as a mismatch, whatever its
current content or readability — the falsy stored digest is skipped exactly
like an absent entry (`if expected and ...`, hashing.py lines 52 and 57). -/
theorem null_digest_never_mismatch (fs : Fs) (man : Manifest) (b : Baseline)
    (p : String)
    (h : ∀ cat ∈ man.map Prod.fst, pyGet b cat p = none) :
    ∀ r ∈ compare_with_baseline fs man b, r.path ≠ p := by
  intro r hr heq
  rw [compare_mem_char] at hr
  obtain ⟨cat, paths, hmem, _, hpg, _, _, _⟩ := hr
  have hcat : cat ∈ man.map Prod.fst := List.mem_map.mpr ⟨(cat, paths), hmem, rfl⟩
  rw [heq] at hpg
  rw [h cat hcat] at hpg
  cases hpg

/-- Witness for C10: the concrete null-digest baseline of the C8
counterexample, where `/etc/passwd` currently hashes to `"aa11"` yet is
never reported. -/
theorem null_digest_never_mismatch_witness :
    (∀ cat ∈ manA.map Prod.fst, pyGet bNull cat "/etc/passwd" = none) ∧
    ∀ r ∈ compare_with_baseline fsA manA bNull, r.path ≠ "/etc/passwd" :=
  ⟨by decide,
   null_digest_never_mismatch fsA manA bNull "/etc/passwd" (by decide)⟩

end Mjolnir
